import Mathlib

/-!
Shallow embedding of the Foundry climate/hazard fusion engine
(`src/foundry/data_pipeline/fetchers/climate.py`,
`src/foundry/data_pipeline/fetchers/disasters.py`,
`src/foundry/data_pipeline/orchestrator.py`).

Python floats are modelled as exact rationals; `round(x, n)` is modelled by
`pyRound n` (round-half-to-even, as Python's builtin); operations that raise
(`statistics.mean` / builtin `max`,`min` on an empty sequence, division by
zero) are modelled with `Option`, `none` meaning an exception propagates.
-/

namespace Foundry

/-- Python's builtin banker's rounding of a rational to the nearest integer:
round half to even. -/
def rnd (q : ℚ) : ℤ :=
  if q - ⌊q⌋ < 1/2 then ⌊q⌋
  else if 1/2 < q - ⌊q⌋ then ⌊q⌋ + 1
  else if Even ⌊q⌋ then ⌊q⌋ else ⌊q⌋ + 1

/-- Python's `round(x, n)`: scale by `10^n`, banker's-round, scale back. -/
def pyRound (n : ℕ) (q : ℚ) : ℚ := (rnd (q * 10 ^ n) : ℚ) / 10 ^ n

lemma floor_le_rnd (q : ℚ) : ⌊q⌋ ≤ rnd q := by
  unfold rnd
  split
  · exact le_refl _
  · split
    · exact le_of_lt (lt_add_one _)
    · split
      · exact le_refl _
      · exact le_of_lt (lt_add_one _)

lemma rnd_le_ceil (q : ℚ) : rnd q ≤ ⌈q⌉ := by
  have hfc : ⌊q⌋ ≤ ⌈q⌉ := Int.floor_le_ceil q
  have hstep : (1:ℚ)/2 ≤ q - ⌊q⌋ → ⌊q⌋ + 1 ≤ ⌈q⌉ := by
    intro h
    have hlt : (⌊q⌋ : ℚ) < q := by linarith
    have h2 : (⌊q⌋ : ℚ) < (⌈q⌉ : ℚ) := lt_of_lt_of_le hlt (Int.le_ceil q)
    exact_mod_cast Int.add_one_le_iff.mpr (by exact_mod_cast h2)
  unfold rnd
  split
  · exact hfc
  · split
    · next h1 h2 => exact hstep (le_of_lt h2)
    · split
      · exact hfc
      · next h1 h2 h3 =>
        exact hstep (le_of_not_lt h1)

lemma rnd_nonneg {q : ℚ} (h : 0 ≤ q) : 0 ≤ rnd q := by
  have := floor_le_rnd q
  have h0 : (0:ℤ) ≤ ⌊q⌋ := Int.le_floor.mpr (by exact_mod_cast h)
  omega

lemma pyRound_nonneg (n : ℕ) {q : ℚ} (h : 0 ≤ q) : 0 ≤ pyRound n q := by
  unfold pyRound
  have h1 : (0:ℚ) ≤ q * 10 ^ n := by positivity
  have h2 : (0:ℤ) ≤ rnd (q * 10 ^ n) := rnd_nonneg h1
  have h3 : (0:ℚ) ≤ (rnd (q * 10 ^ n) : ℚ) := by exact_mod_cast h2
  positivity

/-- Bounds for rounding to one decimal: a value in `[a, b]` (integers `a`, `b`)
rounds to a value in `[a, b]`. -/
lemma pyRound_one_bounds {q : ℚ} {a b : ℤ} (ha : (a:ℚ) ≤ q) (hb : q ≤ (b:ℚ)) :
    (a:ℚ) ≤ pyRound 1 q ∧ pyRound 1 q ≤ (b:ℚ) := by
  unfold pyRound
  have hlo : (10 * a : ℤ) ≤ ⌊q * 10 ^ 1⌋ := by
    apply Int.le_floor.mpr
    push_cast
    nlinarith
  have hhi : ⌈q * 10 ^ 1⌉ ≤ (10 * b : ℤ) := by
    apply Int.ceil_le.mpr
    push_cast
    nlinarith
  have h1 : (10 * a : ℤ) ≤ rnd (q * 10 ^ 1) := le_trans hlo (floor_le_rnd _)
  have h2 : rnd (q * 10 ^ 1) ≤ (10 * b : ℤ) := le_trans (rnd_le_ceil _) hhi
  constructor
  · rw [le_div_iff₀ (by norm_num)]
    calc (a:ℚ) * 10 ^ 1 = ((10 * a : ℤ) : ℚ) := by push_cast; ring
    _ ≤ (rnd (q * 10 ^ 1) : ℚ) := by exact_mod_cast h1
  · rw [div_le_iff₀ (by norm_num)]
    calc (rnd (q * 10 ^ 1) : ℚ) ≤ ((10 * b : ℤ) : ℚ) := by exact_mod_cast h2
    _ = (b:ℚ) * 10 ^ 1 := by push_cast; ring

/-- Model of `statistics.mean`: raises (`none`) on an empty list. -/
def meanQ (l : List ℚ) : Option ℚ :=
  if l = [] then none else some (l.sum / l.length)

/-- Model of Python's builtin `max` on a list of numbers: raises on empty. -/
def maxQ : List ℚ → Option ℚ
  | [] => none
  | x :: xs => some (xs.foldl max x)

/-- Model of Python's builtin `min` on a list of numbers: raises on empty. -/
def minQ : List ℚ → Option ℚ
  | [] => none
  | x :: xs => some (xs.foldl min x)

lemma meanQ_eq_none {l : List ℚ} : meanQ l = none ↔ l = [] := by
  unfold meanQ; split <;> simp_all

lemma meanQ_eq_some {l : List ℚ} (h : l ≠ []) :
    meanQ l = some (l.sum / l.length) := by
  unfold meanQ; simp [h]

lemma meanQ_some_ne_nil {l : List ℚ} {v : ℚ} (h : meanQ l = some v) : l ≠ [] := by
  intro hl; rw [hl] at h; simp [meanQ] at h

lemma maxQ_eq_none {l : List ℚ} : maxQ l = none ↔ l = [] := by
  cases l <;> simp [maxQ]

lemma maxQ_some_ne_nil {l : List ℚ} {v : ℚ} (h : maxQ l = some v) : l ≠ [] := by
  intro hl; rw [hl] at h; simp [maxQ] at h

lemma foldl_max_ge_init (l : List ℚ) (x : ℚ) : x ≤ l.foldl max x := by
  induction l generalizing x with
  | nil => exact le_refl x
  | cons y ys ih => exact le_trans (le_max_left x y) (ih (max x y))

lemma foldl_max_ge_mem (l : List ℚ) (x : ℚ) : ∀ y ∈ l, y ≤ l.foldl max x := by
  induction l generalizing x with
  | nil => intro y hy; cases hy
  | cons z zs ih =>
    intro y hy
    rcases List.mem_cons.mp hy with h | h
    · subst h
      exact le_trans (le_max_right x y) (foldl_max_ge_init zs (max x y))
    · exact ih (max x z) y h

lemma foldl_max_mem (l : List ℚ) (x : ℚ) : l.foldl max x = x ∨ l.foldl max x ∈ l := by
  induction l generalizing x with
  | nil => exact Or.inl rfl
  | cons y ys ih =>
    simp only [List.foldl_cons]
    rcases max_choice x y with hm | hm <;> rw [hm]
    · rcases ih x with h | h
      · exact Or.inl h
      · exact Or.inr (List.mem_cons_of_mem y h)
    · rcases ih y with h | h
      · rw [h]
        exact Or.inr (List.mem_cons_self y ys)
      · exact Or.inr (List.mem_cons_of_mem y h)

lemma maxQ_spec {l : List ℚ} {M : ℚ} (h : maxQ l = some M) :
    (∀ x ∈ l, x ≤ M) ∧ M ∈ l := by
  cases l with
  | nil => simp [maxQ] at h
  | cons x xs =>
    simp only [maxQ, Option.some.injEq] at h
    subst h
    constructor
    · intro y hy
      rcases List.mem_cons.mp hy with h | h
      · subst h; exact foldl_max_ge_init xs y
      · exact foldl_max_ge_mem xs x y h
    · rcases foldl_max_mem xs x with h | h
      · rw [h]; exact List.mem_cons_self x xs
      · exact List.mem_cons_of_mem x h

/-- The fixed twelve-name calendar (`ClimateService.months`). -/
def months : List String :=
  ["January", "February", "March", "April", "May", "June",
   "July", "August", "September", "October", "November", "December"]

/-- Name of a (zero-based) month index, as `self.months[int(month_num) - 1]`. -/
def monthName (m : Fin 12) : String := months.getD m.val ""

/-- A parsed daily date `"YYYY-MM-DD"`; only the year and the (zero-based)
month index are consumed by the aggregation code. -/
structure Date where
  year : ℕ
  month : Fin 12
deriving DecidableEq

/-- The daily time-series bundle `response.json()["daily"]`: an aligned date
array plus one array per requested variable, entries `none` for missing days. -/
structure DailyData where
  time : List Date
  temperature_2m_max : List (Option ℚ)
  temperature_2m_min : List (Option ℚ)
  precipitation_sum : List (Option ℚ)
  wind_speed_10m_max : List (Option ℚ)
  wind_gusts_10m_max : List (Option ℚ)
  wind_direction_10m_dominant : List (Option ℚ)
  shortwave_radiation_sum : List (Option ℚ)
  relative_humidity_2m_mean : List (Option ℚ)
  relative_humidity_2m_max : List (Option ℚ)
  relative_humidity_2m_min : List (Option ℚ)
  soil_moisture_0_to_7cm_mean : List (Option ℚ)
  soil_moisture_7_to_28cm_mean : List (Option ℚ)
  soil_moisture_28_to_100cm_mean : List (Option ℚ)
  soil_temperature_0_to_7cm_mean : List (Option ℚ)
  et0_fao_evapotranspiration : List (Option ℚ)

/-- Add `v` to the running total for year `y` in an association list, as a
`defaultdict(float)` update `totals[y] += v`. -/
def bumpYear : List (ℕ × ℚ) → ℕ → ℚ → List (ℕ × ℚ)
  | [], y, v => [(y, v)]
  | (y2, w) :: rest, y, v =>
    if y2 = y then (y2, w + v) :: rest else (y2, w) :: bumpYear rest y v

/-- A qualifying (year, value) row for month `m`: the date has month `m` and
the value is present. -/
def qualRows (m : Fin 12) (rows : List (Date × Option ℚ)) : List (ℕ × ℚ) :=
  rows.filterMap fun r =>
    match r.2 with
    | none => none
    | some v => if r.1.month = m then some (r.1.year, v) else none

/-- Projection at month `m` of the nested accumulator `monthly_data` built in
`_calculate_monthly_rainfall`: per-year rainfall totals for that month,
accumulated row by row (rows of other months leave it unchanged). -/
def monthYearTotals (m : Fin 12) (rows : List (Date × Option ℚ)) : List (ℕ × ℚ) :=
  rows.foldl
    (fun acc r =>
      match r.2 with
      | none => acc
      | some v => if r.1.month = m then bumpYear acc r.1.year v else acc)
    []

/-- Model of `ClimateService._calculate_monthly_rainfall`: for each calendar
month (in January→December order), the mean across years of the per-(month,
year) rainfall sums, rounded to 1 decimal; months with no data map to `0.0`. -/
def calculate_monthly_rainfall (dates : List Date) (values : List (Option ℚ)) :
    List (String × ℚ) :=
  (List.finRange 12).map fun m =>
    let totals := monthYearTotals m (dates.zip values)
    (monthName m,
      if totals = [] then 0
      else pyRound 1 ((totals.map Prod.snd).sum / (totals.length : ℚ)))

/-- The non-missing values falling in month `m` (the per-month list built by
`_calculate_monthly_temp_averages`). -/
def monthVals (m : Fin 12) (rows : List (Date × Option ℚ)) : List ℚ :=
  rows.filterMap fun r =>
    match r.2 with
    | none => none
    | some v => if r.1.month = m then some v else none

/-- Model of `ClimateService._calculate_monthly_temp_averages`: mean of the
daily values per calendar month, rounded to 1 decimal, `0.0` when empty. -/
def calculate_monthly_temp_averages (dates : List Date) (values : List (Option ℚ)) :
    List (String × ℚ) :=
  (List.finRange 12).map fun m =>
    let vs := monthVals m (dates.zip values)
    (monthName m, if vs = [] then 0 else pyRound 1 (vs.sum / (vs.length : ℚ)))

/-- Per-year rainfall totals over the window (`_calculate_yearly_rainfall`'s
`yearly_totals` dict, keyed by year). -/
def yearTotals (rows : List (Date × Option ℚ)) : List (ℕ × ℚ) :=
  rows.foldl
    (fun acc r =>
      match r.2 with
      | none => acc
      | some v => bumpYear acc r.1.year v)
    []

/-- Model of `ClimateService._calculate_yearly_rainfall`: the list of per-year
precipitation sums. -/
def calculate_yearly_rainfall (dates : List Date) (values : List (Option ℚ)) :
    List ℚ :=
  (yearTotals (dates.zip values)).map Prod.snd

/-- Model of Python's `max(mapping, key=mapping.get)` over an insertion-ordered
mapping: the first pair attaining the maximal value (ties keep the earlier
entry, since a later entry replaces the best only when strictly greater). -/
def maxPairFirst : List (String × ℚ) → String × ℚ
  | [] => ("", 0)
  | p :: rest => rest.foldl (fun best q => if q.2 > best.2 then q else best) p

/-- Model of Python's `min(mapping, key=mapping.get)`: the first pair attaining
the minimal value. -/
def minPairFirst : List (String × ℚ) → String × ℚ
  | [] => ("", 0)
  | p :: rest => rest.foldl (fun best q => if q.2 < best.2 then q else best) p

/-- Wind characteristics (`WindProfile`). -/
structure WindProfile where
  avg_speed_kmh : ℚ
  max_gust_kmh : ℚ
  dominant_direction_degrees : ℚ
deriving DecidableEq

/-- Solar radiation data (`SolarProfile`). -/
structure SolarProfile where
  annual_radiation_sum_mj_m2 : ℚ
  avg_daily_radiation_wm2 : ℚ
deriving DecidableEq

/-- Humidity characteristics (`HumidityProfile`). -/
structure HumidityProfile where
  avg_relative_humidity_percent : ℚ
  max_relative_humidity_percent : ℚ
  min_relative_humidity_percent : ℚ
deriving DecidableEq

/-- Soil conditions (`SoilProfile`). -/
structure SoilProfile where
  avg_moisture_0_7cm : ℚ
  avg_moisture_7_100cm : ℚ
  avg_temp_0_7cm_c : ℚ
deriving DecidableEq

/-- Complete climate profile (`ClimateProfile`); the monthly mapping is an
insertion-ordered `dict`, modelled as an ordered association list. -/
structure ClimateProfile where
  annual_temp_avg_c : ℚ
  annual_temp_max_c : ℚ
  annual_temp_min_c : ℚ
  hottest_month : String
  coldest_month : String
  annual_rainfall_mm : ℚ
  wettest_month : String
  driest_month : String
  rainfall_by_month : List (String × ℚ)
  wind : WindProfile
  solar : SolarProfile
  humidity : HumidityProfile
  soil : SoilProfile
  annual_et0_mm : ℚ
deriving DecidableEq

/-- Model of `ClimateService.get_climate_profile` after the HTTP fetch: reduce
the daily bundle to a `ClimateProfile`. `none` models an uncaught exception
(`statistics.mean` or builtin `max` applied to an empty sequence). -/
def get_climate_profile (d : DailyData) : Option ClimateProfile :=
  (meanQ (d.temperature_2m_max.filterMap id)).bind fun annual_temp_max =>
  (meanQ (d.temperature_2m_min.filterMap id)).bind fun annual_temp_min =>
  let annual_temp_avg := (annual_temp_max + annual_temp_min) / 2
  let yearly_rainfall := calculate_yearly_rainfall d.time d.precipitation_sum
  let annual_rainfall :=
    if yearly_rainfall = [] then 0 else yearly_rainfall.sum / (yearly_rainfall.length : ℚ)
  let monthly_rainfall := calculate_monthly_rainfall d.time d.precipitation_sum
  let monthly_temps_max := calculate_monthly_temp_averages d.time d.temperature_2m_max
  let wettest := (maxPairFirst monthly_rainfall).1
  let driest := (minPairFirst monthly_rainfall).1
  let hottest := (maxPairFirst monthly_temps_max).1
  let coldest := (minPairFirst monthly_temps_max).1
  (meanQ (d.wind_speed_10m_max.filterMap id)).bind fun avg_wind_speed =>
  (maxQ (d.wind_gusts_10m_max.filterMap id)).bind fun max_wind_gust =>
  (meanQ (d.wind_direction_10m_dominant.filterMap id)).bind fun avg_wind_dir =>
  let solar_radiation := d.shortwave_radiation_sum.filterMap id
  let annual_solar := solar_radiation.sum
  (meanQ solar_radiation).bind fun mean_solar =>
  let avg_daily_solar := mean_solar * 1000000 / 3600
  (meanQ (d.relative_humidity_2m_mean.filterMap id)).bind fun humidity_mean =>
  (meanQ (d.relative_humidity_2m_max.filterMap id)).bind fun humidity_max =>
  (meanQ (d.relative_humidity_2m_min.filterMap id)).bind fun humidity_min =>
  (meanQ (d.soil_moisture_0_to_7cm_mean.filterMap id)).bind fun soil_0_7 =>
  (meanQ (d.soil_moisture_7_to_28cm_mean.filterMap id ++
          d.soil_moisture_28_to_100cm_mean.filterMap id)).bind fun soil_7_100 =>
  (meanQ (d.soil_temperature_0_to_7cm_mean.filterMap id)).bind fun soil_temp =>
  let annual_et0 := (d.et0_fao_evapotranspiration.filterMap id).sum
  some
    { annual_temp_avg_c := pyRound 1 annual_temp_avg
      annual_temp_max_c := pyRound 1 annual_temp_max
      annual_temp_min_c := pyRound 1 annual_temp_min
      hottest_month := hottest
      coldest_month := coldest
      annual_rainfall_mm := pyRound 1 annual_rainfall
      wettest_month := wettest
      driest_month := driest
      rainfall_by_month := monthly_rainfall
      wind :=
        { avg_speed_kmh := pyRound 1 avg_wind_speed
          max_gust_kmh := pyRound 1 max_wind_gust
          dominant_direction_degrees := pyRound 0 avg_wind_dir }
      solar :=
        { annual_radiation_sum_mj_m2 := pyRound 1 annual_solar
          avg_daily_radiation_wm2 := pyRound 1 avg_daily_solar }
      humidity :=
        { avg_relative_humidity_percent := pyRound 1 humidity_mean
          max_relative_humidity_percent := pyRound 1 humidity_max
          min_relative_humidity_percent := pyRound 1 humidity_min }
      soil :=
        { avg_moisture_0_7cm := pyRound 3 soil_0_7
          avg_moisture_7_100cm := pyRound 3 soil_7_100
          avg_temp_0_7cm_c := pyRound 1 soil_temp }
      annual_et0_mm := pyRound 1 annual_et0 }

/-- One elevation sample (`ElevationResult`). -/
structure ElevationResult where
  elevation_meters : ℚ
  latitude : ℚ
  longitude : ℚ
deriving DecidableEq

/-- One historical seismic event from the USGS feature list: its magnitude
(`properties.mag`) and coordinates. -/
structure SeismicEvent where
  mag : ℚ
  lat : ℚ
  lon : ℚ
deriving DecidableEq

/-- Earthquake risk assessment record (`EarthquakeRisk`). -/
structure EarthquakeRisk where
  total_events : ℕ
  events_last_100yr : ℕ
  max_magnitude : ℚ
  avg_magnitude : ℚ
  nearest_event_km : ℚ
  risk_level : String
deriving DecidableEq

/-- Tropical cyclone risk assessment record (`CycloneRisk`). -/
structure CycloneRisk where
  events_50yr : ℕ
  frequency_per_decade : ℚ
  max_category : ℕ
  avg_wind_speed_kmh : ℚ
  risk_level : String
deriving DecidableEq

/-- Flood risk assessment record (`FloodRisk`). -/
structure FloodRisk where
  low_elevation_percent : ℚ
  annual_rainfall_mm : ℚ
  wet_season_intensity : ℚ
  drainage_capacity : String
  risk_level : String
deriving DecidableEq

/-- Drought risk assessment record (`DroughtRisk`). -/
structure DroughtRisk where
  water_deficit_mm : ℚ
  dry_season_months : ℕ
  risk_level : String
deriving DecidableEq

/-- Model of `DisasterService._assess_earthquake_risk` on the caller-supplied
event list. The haversine distance (transcendental, not expressible as an
executable rational function) is abstracted as the oracle `dist`, giving the
distance from the site to an event; the risk level never depends on it.
`none` models the `ValueError` of `max` on an empty sequence (all magnitudes
falsy after the truthiness filter `if e["properties"]["mag"]`). -/
def assess_earthquake_risk (dist : SeismicEvent → ℚ) (events : List SeismicEvent) :
    Option EarthquakeRisk :=
  if events = [] then
    some
      { total_events := 0, events_last_100yr := 0, max_magnitude := 0
        avg_magnitude := 0, nearest_event_km := 999, risk_level := "very_low" }
  else
    let magnitudes := (events.map SeismicEvent.mag).filter fun m => m ≠ 0
    (maxQ magnitudes).bind fun max_mag =>
    let avg_mag := magnitudes.sum / (magnitudes.length : ℚ)
    (minQ (events.map dist)).bind fun nearest_dist =>
    let risk :=
      if 7 ≤ max_mag ∨ 50 < events.length then "very_high"
      else if 6 ≤ max_mag ∨ 20 < events.length then "high"
      else if 5 ≤ max_mag ∨ 10 < events.length then "moderate"
      else if 5 < events.length then "low"
      else "very_low"
    some
      { total_events := events.length, events_last_100yr := events.length
        max_magnitude := pyRound 1 max_mag, avg_magnitude := pyRound 1 avg_mag
        nearest_event_km := pyRound 1 nearest_dist, risk_level := risk }

/-- A geographic bounding box `(lat_min, lat_max, lon_min, lon_max)`. -/
structure Box where
  lat_min : ℚ
  lat_max : ℚ
  lon_min : ℚ
  lon_max : ℚ
deriving DecidableEq

/-- Membership test `lat_min <= lat <= lat_max and lon_min <= lon <= lon_max`. -/
def Box.containsPt (b : Box) (lat lon : ℚ) : Bool :=
  decide (b.lat_min ≤ lat) && decide (lat ≤ b.lat_max) &&
  decide (b.lon_min ≤ lon) && decide (lon ≤ b.lon_max)

/-- The `"atlantic"` cyclone basin box. -/
def atlantic : Box := ⟨10, 30, -100, -20⟩

/-- The `"pacific"` cyclone basin box, exactly as written in the source. -/
def pacific : Box := ⟨5, 30, 100, -80⟩

/-- The `"indian"` cyclone basin box. -/
def indian : Box := ⟨-30, 30, 40, 120⟩

/-- The `cyclone_regions` table. -/
def cyclone_regions : List Box := [atlantic, pacific, indian]

/-- Membership in any cyclone basin (`in_basin` in `_assess_cyclone_risk`). -/
def in_basin (lat lon : ℚ) : Bool :=
  cyclone_regions.any fun b => b.containsPt lat lon

/-- Model of `DisasterService._assess_cyclone_risk`. -/
def assess_cyclone_risk (lat lon : ℚ) : CycloneRisk :=
  let in_cyclone_belt : Bool := decide (5 ≤ |lat|) && decide (|lat| ≤ 30)
  if in_cyclone_belt && in_basin lat lon then
    { events_50yr := 15, frequency_per_decade := 3, max_category := 4
      avg_wind_speed_kmh := 150, risk_level := "high" }
  else if in_basin lat lon then
    { events_50yr := 5, frequency_per_decade := 1, max_category := 2
      avg_wind_speed_kmh := 100, risk_level := "moderate" }
  else
    { events_50yr := 0, frequency_per_decade := 0, max_category := 0
      avg_wind_speed_kmh := 0, risk_level := "very_low" }

/-- Model of `DisasterService._assess_flood_risk`. `none` models the
`ZeroDivisionError` of `low_areas / len(elevation_grid)` on an empty grid
(and the `ValueError` of `max` on an empty monthly mapping). -/
def assess_flood_risk (elevation_grid : List ElevationResult)
    (cp : ClimateProfile) : Option FloodRisk :=
  if elevation_grid = [] then none
  else
    let low_areas := (elevation_grid.filter fun e => e.elevation_meters < 10).length
    let low_percent := ((low_areas : ℚ) / (elevation_grid.length : ℚ)) * 100
    (maxQ (cp.rainfall_by_month.map Prod.snd)).bind fun max_monthly =>
    let avg_monthly := cp.annual_rainfall_mm / 12
    let wet_intensity := if 0 < avg_monthly then max_monthly / avg_monthly else 1
    let dr :=
      if 1500 < cp.annual_rainfall_mm ∧ 50 < low_percent then ("poor", "very_high")
      else if 1000 < cp.annual_rainfall_mm ∨ 30 < low_percent then ("moderate", "high")
      else if 500 < cp.annual_rainfall_mm then ("good", "moderate")
      else ("good", "low")
    some
      { low_elevation_percent := pyRound 1 low_percent
        annual_rainfall_mm := cp.annual_rainfall_mm
        wet_season_intensity := pyRound 1 wet_intensity
        drainage_capacity := dr.1
        risk_level := dr.2 }

/-- Model of `DisasterService._assess_drought_risk`. -/
def assess_drought_risk (cp : ClimateProfile) : DroughtRisk :=
  let water_deficit := cp.annual_rainfall_mm - cp.annual_et0_mm
  let dry_months := (cp.rainfall_by_month.filter fun r => r.2 < 50).length
  let risk :=
    if water_deficit < -1000 ∨ 6 ≤ dry_months then "very_high"
    else if water_deficit < -500 ∨ 4 ≤ dry_months then "high"
    else if water_deficit < 0 ∨ 2 ≤ dry_months then "moderate"
    else "low"
  { water_deficit_mm := pyRound 1 water_deficit
    dry_season_months := dry_months
    risk_level := risk }

/-- Model of `DisasterService._risk_to_score`: `scores.get(risk_level, 5.0)`. -/
def risk_to_score (risk_level : String) : ℚ :=
  if risk_level = "very_low" then 1
  else if risk_level = "low" then 3
  else if risk_level = "moderate" then 5
  else if risk_level = "high" then 15/2
  else if risk_level = "very_high" then 10
  else 5

/-- The five recognized risk levels. -/
def validLevels : List String := ["very_low", "low", "moderate", "high", "very_high"]

/-- The composite-score step of `DisasterService.get_disaster_profile`
(lines 96–117): weighted average of the six per-hazard scores, rounded to
1 decimal. Weights: earthquake 2.0, tsunami 1.5, cyclone 1.5, flood 2.0,
drought 1.0, landslide 1.0. -/
def overall_risk_score (earthquake tsunami cyclone flood drought landslide : String) : ℚ :=
  let total_score :=
    risk_to_score earthquake * 2 + risk_to_score tsunami * (3/2) +
    risk_to_score cyclone * (3/2) + risk_to_score flood * 2 +
    risk_to_score drought * 1 + risk_to_score landslide * 1
  let total_weight : ℚ := 2 + 3/2 + 3/2 + 2 + 1 + 1
  pyRound 1 (total_score / total_weight)

/-- Model of `UrbanDataOrchestrator._get_risk_summary`. -/
def get_risk_summary (score : ℚ) : String :=
  if score < 2 then "very_low"
  else if score < 4 then "low"
  else if score < 6 then "moderate"
  else if score < 8 then "high"
  else "very_high"

/-- Twelve calendar months all mapped to rainfall `0.0`. -/
def zeroMonths : List (String × ℚ) := months.map fun m => (m, 0)

/-- A concrete climate profile used to exercise the hazard assessors: zero
rainfall everywhere and an annual reference evapotranspiration of 1200 mm. -/
def cpDry : ClimateProfile where
  annual_temp_avg_c := 25
  annual_temp_max_c := 30
  annual_temp_min_c := 20
  hottest_month := "January"
  coldest_month := "January"
  annual_rainfall_mm := 0
  wettest_month := "January"
  driest_month := "January"
  rainfall_by_month := zeroMonths
  wind := ⟨10, 20, 90⟩
  solar := ⟨5000, 200⟩
  humidity := ⟨50, 80, 30⟩
  soil := ⟨1/5, 1/5, 15⟩
  annual_et0_mm := 1200

/-- Claim C8: the drought assessment computes
`water_deficit_mm = round(annual_rainfall − annual_et0, 1)` (possibly
negative), counts the months with mean rainfall below 50 mm, classifies the
risk level by the first matching threshold, and in particular zero rainfall
with 1200 mm of ET0 yields `very_high` and a deficit of −1200.0. -/
theorem drought_deficit_dry_months_and_thresholds (cp : ClimateProfile) :
    (assess_drought_risk cp).water_deficit_mm
        = pyRound 1 (cp.annual_rainfall_mm - cp.annual_et0_mm) ∧
    (assess_drought_risk cp).dry_season_months
        = (cp.rainfall_by_month.filter fun r => r.2 < 50).length ∧
    ((assess_drought_risk cp).risk_level = "very_high" ↔
      (cp.annual_rainfall_mm - cp.annual_et0_mm < -1000 ∨
        6 ≤ (cp.rainfall_by_month.filter fun r => r.2 < 50).length)) ∧
    ((assess_drought_risk cp).risk_level = "high" ↔
      (¬ (cp.annual_rainfall_mm - cp.annual_et0_mm < -1000 ∨
          6 ≤ (cp.rainfall_by_month.filter fun r => r.2 < 50).length) ∧
        (cp.annual_rainfall_mm - cp.annual_et0_mm < -500 ∨
          4 ≤ (cp.rainfall_by_month.filter fun r => r.2 < 50).length))) ∧
    ((assess_drought_risk cp).risk_level = "moderate" ↔
      (¬ (cp.annual_rainfall_mm - cp.annual_et0_mm < -1000 ∨
          6 ≤ (cp.rainfall_by_month.filter fun r => r.2 < 50).length) ∧
        ¬ (cp.annual_rainfall_mm - cp.annual_et0_mm < -500 ∨
          4 ≤ (cp.rainfall_by_month.filter fun r => r.2 < 50).length) ∧
        (cp.annual_rainfall_mm - cp.annual_et0_mm < 0 ∨
          2 ≤ (cp.rainfall_by_month.filter fun r => r.2 < 50).length))) ∧
    ((assess_drought_risk cp).risk_level = "low" ↔
      (¬ (cp.annual_rainfall_mm - cp.annual_et0_mm < -1000 ∨
          6 ≤ (cp.rainfall_by_month.filter fun r => r.2 < 50).length) ∧
        ¬ (cp.annual_rainfall_mm - cp.annual_et0_mm < -500 ∨
          4 ≤ (cp.rainfall_by_month.filter fun r => r.2 < 50).length) ∧
        ¬ (cp.annual_rainfall_mm - cp.annual_et0_mm < 0 ∨
          2 ≤ (cp.rainfall_by_month.filter fun r => r.2 < 50).length))) ∧
    (cp.annual_rainfall_mm = 0 → cp.annual_et0_mm = 1200 →
      (assess_drought_risk cp).risk_level = "very_high" ∧
        (assess_drought_risk cp).water_deficit_mm = -1200) := by
  simp only [assess_drought_risk]
  split_ifs with h1 h2 h3
  · refine ⟨trivial, trivial, ⟨fun _ => h1, fun _ => rfl⟩,
      iff_of_false (by decide) (fun hc => hc.1 h1),
      iff_of_false (by decide) (fun hc => hc.1 h1),
      iff_of_false (by decide) (fun hc => hc.1 h1), ?_⟩
    intro hr he
    refine ⟨rfl, ?_⟩
    rw [hr, he]
    norm_num [pyRound, rnd]
  · exact ⟨trivial, trivial, iff_of_false (by decide) h1,
      iff_of_true rfl ⟨h1, h2⟩,
      iff_of_false (by decide) (fun hc => hc.2.1 h2),
      iff_of_false (by decide) (fun hc => hc.2.1 h2),
      fun hr he => absurd (Or.inl (by rw [hr, he]; norm_num)) h1⟩
  · exact ⟨trivial, trivial, iff_of_false (by decide) h1,
      iff_of_false (by decide) (fun hc => h2 hc.2),
      iff_of_true rfl ⟨h1, h2, h3⟩,
      iff_of_false (by decide) (fun hc => hc.2.2 h3),
      fun hr he => absurd (Or.inl (by rw [hr, he]; norm_num)) h1⟩
  · exact ⟨trivial, trivial, iff_of_false (by decide) h1,
      iff_of_false (by decide) (fun hc => h2 hc.2),
      iff_of_false (by decide) (fun hc => h3 hc.2.2),
      iff_of_true rfl ⟨h1, h2, h3⟩,
      fun hr he => absurd (Or.inl (by rw [hr, he]; norm_num)) h1⟩

/-- Witness for C8: the concrete dry profile hits `very_high` with a deficit
of exactly −1200.0. -/
theorem drought_deficit_dry_months_and_thresholds_witness :
    (assess_drought_risk cpDry).risk_level = "very_high" ∧
      (assess_drought_risk cpDry).water_deficit_mm = -1200 :=
  (drought_deficit_dry_months_and_thresholds cpDry).2.2.2.2.2.2 rfl rfl

lemma pacific_containsPt_false (lat lon : ℚ) : pacific.containsPt lat lon = false := by
  simp only [Box.containsPt, pacific, Bool.and_eq_false_iff, decide_eq_false_iff_not, not_le]
  by_cases h : (100:ℚ) ≤ lon
  · right
    linarith
  · left
    right
    exact lt_of_not_le h

/-- Claim C9: the `"pacific"` basin box is unsatisfiable (`lon_min = 100 >
lon_max = -80`), so basin membership reduces to the Atlantic or Indian box,
and a site with longitude in `(120, 180]` is assessed cyclone risk
`very_low` even inside the cyclone latitude belt. -/
theorem pacific_box_empty_basin_reduces_very_low (lat lon : ℚ) :
    (∀ l : ℚ, ¬ (pacific.lon_min ≤ l ∧ l ≤ pacific.lon_max)) ∧
    (in_basin lat lon = (atlantic.containsPt lat lon || indian.containsPt lat lon)) ∧
    (120 < lon → lon ≤ 180 → 5 ≤ |lat| → |lat| ≤ 30 →
      (assess_cyclone_risk lat lon).risk_level = "very_low") := by
  refine ⟨?_, ?_, ?_⟩
  · intro l hl
    have h1 : (100:ℚ) ≤ l := by simpa [pacific] using hl.1
    have h2 : l ≤ -80 := by simpa [pacific] using hl.2
    linarith
  · simp [in_basin, cyclone_regions, pacific_containsPt_false]
  · intro h120 _h180 _hb1 _hb2
    have hatl : atlantic.containsPt lat lon = false := by
      simp only [Box.containsPt, atlantic, Bool.and_eq_false_iff,
        decide_eq_false_iff_not, not_le]
      right
      linarith
    have hind : indian.containsPt lat lon = false := by
      simp only [Box.containsPt, indian, Bool.and_eq_false_iff,
        decide_eq_false_iff_not, not_le]
      right
      linarith
    have hbasin : in_basin lat lon = false := by
      simp [in_basin, cyclone_regions, pacific_containsPt_false, hatl, hind]
    simp [assess_cyclone_risk, hbasin]

/-- Witness for C9: a site at latitude 20, longitude 150 (inside the cyclone
belt, east of the Indian box) is assessed `very_low`. -/
theorem pacific_box_empty_basin_reduces_very_low_witness :
    (assess_cyclone_risk 20 150).risk_level = "very_low" :=
  (pacific_box_empty_basin_reduces_very_low 20 150).2.2
    (by norm_num) (by norm_num) (by norm_num) (by norm_num)

lemma risk_to_score_very_low_eq : risk_to_score "very_low" = 1 := rfl

lemma risk_to_score_low_eq : risk_to_score "low" = 3 := rfl

lemma risk_to_score_moderate_eq : risk_to_score "moderate" = 5 := rfl

lemma risk_to_score_high_eq : risk_to_score "high" = 15/2 := rfl

lemma risk_to_score_very_high_eq : risk_to_score "very_high" = 10 := rfl

lemma risk_to_score_bounds {s : String} (h : s ∈ validLevels) :
    1 ≤ risk_to_score s ∧ risk_to_score s ≤ 10 := by
  fin_cases h
  · rw [risk_to_score_very_low_eq]
    norm_num
  · rw [risk_to_score_low_eq]
    norm_num
  · rw [risk_to_score_moderate_eq]
    norm_num
  · rw [risk_to_score_high_eq]
    norm_num
  · rw [risk_to_score_very_high_eq]
    norm_num

lemma get_risk_summary_buckets (q : ℚ) :
    (get_risk_summary q = "very_low" ↔ q < 2) ∧
    (get_risk_summary q = "low" ↔ 2 ≤ q ∧ q < 4) ∧
    (get_risk_summary q = "moderate" ↔ 4 ≤ q ∧ q < 6) ∧
    (get_risk_summary q = "high" ↔ 6 ≤ q ∧ q < 8) ∧
    (get_risk_summary q = "very_high" ↔ 8 ≤ q) := by
  simp only [get_risk_summary]
  split_ifs with h1 h2 h3 h4
  · exact ⟨iff_of_true rfl h1,
      iff_of_false (by decide) (fun hc => by linarith [hc.1]),
      iff_of_false (by decide) (fun hc => by linarith [hc.1]),
      iff_of_false (by decide) (fun hc => by linarith [hc.1]),
      iff_of_false (by decide) (fun hc => by linarith)⟩
  · exact ⟨iff_of_false (by decide) h1,
      iff_of_true rfl ⟨le_of_not_lt h1, h2⟩,
      iff_of_false (by decide) (fun hc => by linarith [hc.1]),
      iff_of_false (by decide) (fun hc => by linarith [hc.1]),
      iff_of_false (by decide) (fun hc => by linarith)⟩
  · exact ⟨iff_of_false (by decide) h1,
      iff_of_false (by decide) (fun hc => h2 hc.2),
      iff_of_true rfl ⟨le_of_not_lt h2, h3⟩,
      iff_of_false (by decide) (fun hc => by linarith [hc.1]),
      iff_of_false (by decide) (fun hc => by linarith)⟩
  · exact ⟨iff_of_false (by decide) h1,
      iff_of_false (by decide) (fun hc => h2 hc.2),
      iff_of_false (by decide) (fun hc => h3 hc.2),
      iff_of_true rfl ⟨le_of_not_lt h3, h4⟩,
      iff_of_false (by decide) (fun hc => by linarith)⟩
  · exact ⟨iff_of_false (by decide) h1,
      iff_of_false (by decide) (fun hc => h2 hc.2),
      iff_of_false (by decide) (fun hc => h3 hc.2),
      iff_of_false (by decide) (fun hc => h4 hc.2),
      iff_of_true rfl (le_of_not_lt h4)⟩

/-- Claim C4: the composite risk score is the weighted mean of the six
per-hazard scores (weights 2, 1.5, 1.5, 2, 1, 1, total 9) rounded to one
decimal; it always lies in [0, 10] for valid levels; the summary label
buckets it at 2/4/6/8; and six `very_low` hazards give exactly 1.0,
summarised `very_low`. -/
theorem overall_score_weighted_bounded_bucketed
    (earthquake tsunami cyclone flood drought landslide : String)
    (he : earthquake ∈ validLevels) (ht : tsunami ∈ validLevels)
    (hc : cyclone ∈ validLevels) (hf : flood ∈ validLevels)
    (hd : drought ∈ validLevels) (hl : landslide ∈ validLevels) :
    overall_risk_score earthquake tsunami cyclone flood drought landslide
        = pyRound 1 ((risk_to_score earthquake * 2 + risk_to_score tsunami * (3/2) +
            risk_to_score cyclone * (3/2) + risk_to_score flood * 2 +
            risk_to_score drought + risk_to_score landslide) / 9) ∧
    0 ≤ overall_risk_score earthquake tsunami cyclone flood drought landslide ∧
    overall_risk_score earthquake tsunami cyclone flood drought landslide ≤ 10 ∧
    (∀ q : ℚ,
      (get_risk_summary q = "very_low" ↔ q < 2) ∧
      (get_risk_summary q = "low" ↔ 2 ≤ q ∧ q < 4) ∧
      (get_risk_summary q = "moderate" ↔ 4 ≤ q ∧ q < 6) ∧
      (get_risk_summary q = "high" ↔ 6 ≤ q ∧ q < 8) ∧
      (get_risk_summary q = "very_high" ↔ 8 ≤ q)) ∧
    overall_risk_score "very_low" "very_low" "very_low" "very_low" "very_low" "very_low" = 1 ∧
    get_risk_summary
      (overall_risk_score "very_low" "very_low" "very_low" "very_low" "very_low" "very_low")
      = "very_low" := by
  obtain ⟨he1, he2⟩ := risk_to_score_bounds he
  obtain ⟨ht1, ht2⟩ := risk_to_score_bounds ht
  obtain ⟨hc1, hc2⟩ := risk_to_score_bounds hc
  obtain ⟨hf1, hf2⟩ := risk_to_score_bounds hf
  obtain ⟨hd1, hd2⟩ := risk_to_score_bounds hd
  obtain ⟨hl1, hl2⟩ := risk_to_score_bounds hl
  have hform : overall_risk_score earthquake tsunami cyclone flood drought landslide
      = pyRound 1 ((risk_to_score earthquake * 2 + risk_to_score tsunami * (3/2) +
          risk_to_score cyclone * (3/2) + risk_to_score flood * 2 +
          risk_to_score drought + risk_to_score landslide) / 9) := by
    simp only [overall_risk_score]
    norm_num
  have hlo : (1:ℚ) ≤ (risk_to_score earthquake * 2 + risk_to_score tsunami * (3/2) +
      risk_to_score cyclone * (3/2) + risk_to_score flood * 2 +
      risk_to_score drought + risk_to_score landslide) / 9 := by
    rw [le_div_iff₀ (by norm_num)]
    nlinarith
  have hhi : (risk_to_score earthquake * 2 + risk_to_score tsunami * (3/2) +
      risk_to_score cyclone * (3/2) + risk_to_score flood * 2 +
      risk_to_score drought + risk_to_score landslide) / 9 ≤ (10:ℚ) := by
    rw [div_le_iff₀ (by norm_num)]
    nlinarith
  have hb := pyRound_one_bounds (a := 1) (b := 10) (by exact_mod_cast hlo) (by exact_mod_cast hhi)
  refine ⟨hform, ?_, ?_, fun q => get_risk_summary_buckets q, ?_, ?_⟩
  · rw [hform]
    have := hb.1
    norm_num at this ⊢
    linarith
  · rw [hform]
    have := hb.2
    norm_num at this ⊢
    linarith
  · simp only [overall_risk_score, risk_to_score_very_low_eq]
    norm_num [pyRound, rnd]
  · have h1 : overall_risk_score "very_low" "very_low" "very_low" "very_low" "very_low" "very_low"
        = 1 := by
      simp only [overall_risk_score, risk_to_score_very_low_eq]
      norm_num [pyRound, rnd]
    rw [h1]
    rfl

/-- Witness for C4: a mixed combination of valid levels has its composite
score inside [0, 10]. -/
theorem overall_score_weighted_bounded_bucketed_witness :
    0 ≤ overall_risk_score "high" "low" "moderate" "very_high" "low" "very_low" ∧
    overall_risk_score "high" "low" "moderate" "very_high" "low" "very_low" ≤ 10 := by
  have h := overall_score_weighted_bounded_bucketed
    "high" "low" "moderate" "very_high" "low" "very_low"
    (by decide) (by decide) (by decide) (by decide) (by decide) (by decide)
  exact ⟨h.2.1, h.2.2.1⟩

/-- Counterexample for C2: on an empty terrain grid the flood assessment
raises (`ZeroDivisionError` from `low_areas / len(elevation_grid)`, modelled
as `none`) instead of degrading to a sentinel value. -/
theorem flood_empty_grid_raises : assess_flood_risk [] cpDry = none := rfl

/-- Amended C2: the wet-season-intensity division-by-zero guard (default 1.0)
and the unrecognized-risk-level default (5.0) hold, but an empty terrain grid
makes the flood assessment raise a division-by-zero error rather than
degrade to a sentinel. -/
theorem flood_guards_and_score_default (g : List ElevationResult)
    (cp : ClimateProfile) (s : String) (hg : g ≠ [])
    (hm : cp.rainfall_by_month ≠ []) (hr : cp.annual_rainfall_mm = 0)
    (hs : s ∉ validLevels) :
    (∃ r, assess_flood_risk g cp = some r ∧ r.wet_season_intensity = 1) ∧
    risk_to_score s = 5 ∧
    assess_flood_risk [] cp = none := by
  refine ⟨?_, ?_, rfl⟩
  · obtain ⟨v, vs, hv⟩ : ∃ v vs, cp.rainfall_by_month.map Prod.snd = v :: vs := by
      cases h : cp.rainfall_by_month with
      | nil => exact absurd h hm
      | cons p t => exact ⟨p.2, t.map Prod.snd, by simp [h]⟩
    have hmax : maxQ (cp.rainfall_by_month.map Prod.snd) = some (vs.foldl max v) := by
      rw [hv]
      rfl
    rcases hres : assess_flood_risk g cp with _ | r
    · exfalso
      simp only [assess_flood_risk, if_neg hg, hmax, Option.some_bind] at hres
      exact Option.noConfusion hres
    · refine ⟨r, rfl, ?_⟩
      simp only [assess_flood_risk, if_neg hg, hmax, Option.some_bind,
        Option.some_inj] at hres
      subst hres
      rw [hr]
      norm_num [pyRound, rnd]
  · simp only [validLevels, List.mem_cons, List.not_mem_nil, or_false, not_or] at hs
    obtain ⟨h1, h2, h3, h4, h5⟩ := hs
    simp [risk_to_score, h1, h2, h3, h4, h5]

/-- Witness for C2 (amended): a one-sample grid with the all-dry profile and
the unrecognized level `"bogus"`. -/
theorem flood_guards_and_score_default_witness :
    (∃ r, assess_flood_risk [⟨5, 0, 0⟩] cpDry = some r ∧ r.wet_season_intensity = 1) ∧
    risk_to_score "bogus" = 5 ∧
    assess_flood_risk [] cpDry = none :=
  flood_guards_and_score_default [⟨5, 0, 0⟩] cpDry "bogus"
    (by simp) (by decide) rfl (by decide)

/-- Claim C3: zero seismic events yield `very_low` with zeroed evidence and
the 999.0 nearest-distance sentinel; with events present (magnitude floor 4.0
guaranteed by the caller-side query filter), the risk level follows the
top-down decision ladder on the maximal magnitude and the event count. -/
theorem earthquake_zero_sentinel_and_ladder (dist : SeismicEvent → ℚ)
    (events : List SeismicEvent) :
    (assess_earthquake_risk dist [] =
      some { total_events := 0, events_last_100yr := 0, max_magnitude := 0,
             avg_magnitude := 0, nearest_event_km := 999, risk_level := "very_low" }) ∧
    (events ≠ [] → (∀ e ∈ events, 4 ≤ e.mag) →
      ∃ r M, assess_earthquake_risk dist events = some r ∧
        maxQ (events.map SeismicEvent.mag) = some M ∧
        (∀ e ∈ events, e.mag ≤ M) ∧
        M ∈ events.map SeismicEvent.mag ∧
        r.total_events = events.length ∧
        r.risk_level =
          (if 7 ≤ M ∨ 50 < events.length then "very_high"
           else if 6 ≤ M ∨ 20 < events.length then "high"
           else if 5 ≤ M ∨ 10 < events.length then "moderate"
           else if 5 < events.length then "low"
           else "very_low")) := by
  refine ⟨rfl, ?_⟩
  intro hne hmag
  have hfil : (events.map SeismicEvent.mag).filter (fun m => m ≠ 0)
      = events.map SeismicEvent.mag := by
    rw [List.filter_eq_self]
    intro a ha
    obtain ⟨e, he, rfl⟩ := List.mem_map.mp ha
    have h4 := hmag e he
    simp only [ne_eq, decide_eq_true_eq]
    intro h0
    rw [h0] at h4
    norm_num at h4
  obtain ⟨e0, rest, rfl⟩ := List.exists_cons_of_ne_nil hne
  have hmax : maxQ ((e0 :: rest).map SeismicEvent.mag)
      = some ((rest.map SeismicEvent.mag).foldl max e0.mag) := rfl
  have hmin : minQ ((e0 :: rest).map dist)
      = some ((rest.map dist).foldl min (dist e0)) := rfl
  obtain ⟨hub, hmem⟩ := maxQ_spec hmax
  have hsome : ∃ r, assess_earthquake_risk dist (e0 :: rest) = some r ∧
      r.total_events = (e0 :: rest).length ∧
      r.risk_level =
        (if 7 ≤ (rest.map SeismicEvent.mag).foldl max e0.mag ∨ 50 < (e0 :: rest).length
          then "very_high"
         else if 6 ≤ (rest.map SeismicEvent.mag).foldl max e0.mag ∨ 20 < (e0 :: rest).length
          then "high"
         else if 5 ≤ (rest.map SeismicEvent.mag).foldl max e0.mag ∨ 10 < (e0 :: rest).length
          then "moderate"
         else if 5 < (e0 :: rest).length then "low"
         else "very_low") := by
    simp only [assess_earthquake_risk, if_neg (List.cons_ne_nil e0 rest), hfil,
      hmax, hmin, Option.some_bind]
    exact ⟨_, rfl, rfl, rfl⟩
  obtain ⟨r, h1, h5, h6⟩ := hsome
  exact ⟨r, (rest.map SeismicEvent.mag).foldl max e0.mag, h1, hmax,
    fun e he => hub _ (List.mem_map_of_mem SeismicEvent.mag he), hmem, h5, h6⟩

/-- Witness for C3: the empty list gives the sentinel record, and a single
magnitude-7.5 event is classified `very_high`. -/
theorem earthquake_zero_sentinel_and_ladder_witness :
    (assess_earthquake_risk (fun _ => 42) []).isSome = true ∧
    (∃ r, assess_earthquake_risk (fun _ => (42:ℚ)) [⟨15/2, 1, 2⟩] = some r ∧
      r.risk_level = "very_high") := by
  have h := earthquake_zero_sentinel_and_ladder (fun _ => (42:ℚ)) [⟨15/2, 1, 2⟩]
  constructor
  · rw [h.1]
    rfl
  · obtain ⟨r, M, h1, h2, _h3, _h4, _h5, h6⟩ :=
      h.2 (List.cons_ne_nil _ _)
        (by
          intro e he
          rw [List.mem_singleton] at he
          subst he
          norm_num)
    have hM : M = 15/2 := by
      have hq : maxQ ([(⟨15/2, 1, 2⟩ : SeismicEvent)].map SeismicEvent.mag)
          = some (15/2) := rfl
      exact (Option.some_inj.mp (hq.symm.trans h2)).symm
    subst hM
    rw [if_pos (Or.inl (by norm_num))] at h6
    exact ⟨r, h1, h6⟩

lemma maxQ_eq_none_of_nil {l : List ℚ} (h : maxQ l = none) : l = [] := by
  cases l with
  | nil => rfl
  | cons x xs => simp [maxQ] at h

lemma get_climate_profile_none_iff (d : DailyData) :
    get_climate_profile d = none ↔
      d.temperature_2m_max.filterMap id = [] ∨
      d.temperature_2m_min.filterMap id = [] ∨
      d.wind_speed_10m_max.filterMap id = [] ∨
      d.wind_gusts_10m_max.filterMap id = [] ∨
      d.wind_direction_10m_dominant.filterMap id = [] ∨
      d.shortwave_radiation_sum.filterMap id = [] ∨
      d.relative_humidity_2m_mean.filterMap id = [] ∨
      d.relative_humidity_2m_max.filterMap id = [] ∨
      d.relative_humidity_2m_min.filterMap id = [] ∨
      d.soil_moisture_0_to_7cm_mean.filterMap id = [] ∨
      (d.soil_moisture_7_to_28cm_mean.filterMap id = [] ∧
       d.soil_moisture_28_to_100cm_mean.filterMap id = []) ∨
      d.soil_temperature_0_to_7cm_mean.filterMap id = [] := by
  rcases h1 : meanQ (d.temperature_2m_max.filterMap id) with _ | v1
  · simp only [get_climate_profile, h1, Option.none_bind]
    simp [meanQ_eq_none.mp h1]
  rcases h2 : meanQ (d.temperature_2m_min.filterMap id) with _ | v2
  · simp only [get_climate_profile, h1, h2, Option.some_bind, Option.none_bind]
    simp [meanQ_eq_none.mp h2]
  rcases h3 : meanQ (d.wind_speed_10m_max.filterMap id) with _ | v3
  · simp only [get_climate_profile, h1, h2, h3, Option.some_bind, Option.none_bind]
    simp [meanQ_eq_none.mp h3]
  rcases h4 : maxQ (d.wind_gusts_10m_max.filterMap id) with _ | v4
  · simp only [get_climate_profile, h1, h2, h3, h4, Option.some_bind, Option.none_bind]
    simp [maxQ_eq_none_of_nil h4]
  rcases h5 : meanQ (d.wind_direction_10m_dominant.filterMap id) with _ | v5
  · simp only [get_climate_profile, h1, h2, h3, h4, h5, Option.some_bind, Option.none_bind]
    simp [meanQ_eq_none.mp h5]
  rcases h6 : meanQ (d.shortwave_radiation_sum.filterMap id) with _ | v6
  · simp only [get_climate_profile, h1, h2, h3, h4, h5, h6, Option.some_bind,
      Option.none_bind]
    simp [meanQ_eq_none.mp h6]
  rcases h7 : meanQ (d.relative_humidity_2m_mean.filterMap id) with _ | v7
  · simp only [get_climate_profile, h1, h2, h3, h4, h5, h6, h7, Option.some_bind,
      Option.none_bind]
    simp [meanQ_eq_none.mp h7]
  rcases h8 : meanQ (d.relative_humidity_2m_max.filterMap id) with _ | v8
  · simp only [get_climate_profile, h1, h2, h3, h4, h5, h6, h7, h8, Option.some_bind,
      Option.none_bind]
    simp [meanQ_eq_none.mp h8]
  rcases h9 : meanQ (d.relative_humidity_2m_min.filterMap id) with _ | v9
  · simp only [get_climate_profile, h1, h2, h3, h4, h5, h6, h7, h8, h9,
      Option.some_bind, Option.none_bind]
    simp [meanQ_eq_none.mp h9]
  rcases h10 : meanQ (d.soil_moisture_0_to_7cm_mean.filterMap id) with _ | v10
  · simp only [get_climate_profile, h1, h2, h3, h4, h5, h6, h7, h8, h9, h10,
      Option.some_bind, Option.none_bind]
    simp [meanQ_eq_none.mp h10]
  rcases h11 : meanQ (d.soil_moisture_7_to_28cm_mean.filterMap id ++
      d.soil_moisture_28_to_100cm_mean.filterMap id) with _ | v11
  · simp only [get_climate_profile, h1, h2, h3, h4, h5, h6, h7, h8, h9, h10, h11,
      Option.some_bind, Option.none_bind]
    have hab := meanQ_eq_none.mp h11
    rw [List.append_eq_nil] at hab
    simp [hab.1, hab.2]
  rcases h12 : meanQ (d.soil_temperature_0_to_7cm_mean.filterMap id) with _ | v12
  · simp only [get_climate_profile, h1, h2, h3, h4, h5, h6, h7, h8, h9, h10, h11, h12,
      Option.some_bind, Option.none_bind]
    simp [meanQ_eq_none.mp h12]
  simp only [get_climate_profile, h1, h2, h3, h4, h5, h6, h7, h8, h9, h10, h11, h12,
    Option.some_bind]
  refine iff_of_false (fun hco => Option.noConfusion hco) ?_
  rintro (h | h | h | h | h | h | h | h | h | h | ⟨ha, hb⟩ | h)
  · exact meanQ_some_ne_nil h1 h
  · exact meanQ_some_ne_nil h2 h
  · exact meanQ_some_ne_nil h3 h
  · exact maxQ_some_ne_nil h4 h
  · exact meanQ_some_ne_nil h5 h
  · exact meanQ_some_ne_nil h6 h
  · exact meanQ_some_ne_nil h7 h
  · exact meanQ_some_ne_nil h8 h
  · exact meanQ_some_ne_nil h9 h
  · exact meanQ_some_ne_nil h10 h
  · exact meanQ_some_ne_nil h11 (by rw [ha, hb]; rfl)
  · exact meanQ_some_ne_nil h12 h

/-- Amended C1: aggregation fails exactly when one of the mean/max-aggregated
variables (temperatures, wind speed/gust/direction, solar, the three humidity
series, the three soil series) is empty after missing-value filtering;
an all-missing precipitation series or evapotranspiration series never causes
a failure (both degrade to 0.0 totals instead). -/
theorem climate_failure_characterization (d : DailyData) :
    get_climate_profile d = none ↔
      d.temperature_2m_max.filterMap id = [] ∨
      d.temperature_2m_min.filterMap id = [] ∨
      d.wind_speed_10m_max.filterMap id = [] ∨
      d.wind_gusts_10m_max.filterMap id = [] ∨
      d.wind_direction_10m_dominant.filterMap id = [] ∨
      d.shortwave_radiation_sum.filterMap id = [] ∨
      d.relative_humidity_2m_mean.filterMap id = [] ∨
      d.relative_humidity_2m_max.filterMap id = [] ∨
      d.relative_humidity_2m_min.filterMap id = [] ∨
      d.soil_moisture_0_to_7cm_mean.filterMap id = [] ∨
      (d.soil_moisture_7_to_28cm_mean.filterMap id = [] ∧
       d.soil_moisture_28_to_100cm_mean.filterMap id = []) ∨
      d.soil_temperature_0_to_7cm_mean.filterMap id = [] :=
  get_climate_profile_none_iff d

/-- A daily bundle with every precipitation and evapotranspiration entry
missing but one valid observation for every other variable. -/
def dNoPrecip : DailyData where
  time := [⟨2020, 0⟩]
  temperature_2m_max := [some 30]
  temperature_2m_min := [some 20]
  precipitation_sum := [none]
  wind_speed_10m_max := [some 10]
  wind_gusts_10m_max := [some 20]
  wind_direction_10m_dominant := [some 90]
  shortwave_radiation_sum := [some 15]
  relative_humidity_2m_mean := [some 50]
  relative_humidity_2m_max := [some 80]
  relative_humidity_2m_min := [some 30]
  soil_moisture_0_to_7cm_mean := [some (1/5)]
  soil_moisture_7_to_28cm_mean := [some (1/5)]
  soil_moisture_28_to_100cm_mean := [some (1/5)]
  soil_temperature_0_to_7cm_mean := [some 15]
  et0_fao_evapotranspiration := [none]

/-- Counterexample for C1: with precipitation (and evapotranspiration)
entirely missing, the aggregation still returns a profile instead of failing. -/
theorem climate_no_failure_on_missing_precipitation :
    (get_climate_profile dNoPrecip).isSome = true := by decide

lemma bumpYear_snd_sum (acc : List (ℕ × ℚ)) (y : ℕ) (v : ℚ) :
    ((bumpYear acc y v).map Prod.snd).sum = (acc.map Prod.snd).sum + v := by
  induction acc with
  | nil => simp [bumpYear]
  | cons p t ih =>
    obtain ⟨y2, w⟩ := p
    simp only [bumpYear]
    split_ifs with h
    · simp only [List.map_cons, List.sum_cons]
      ring
    · simp only [List.map_cons, List.sum_cons, ih]
      ring

lemma bumpYear_fst_mem (acc : List (ℕ × ℚ)) (y : ℕ) (v : ℚ) (z : ℕ) :
    z ∈ (bumpYear acc y v).map Prod.fst ↔ z = y ∨ z ∈ acc.map Prod.fst := by
  induction acc with
  | nil => simp [bumpYear]
  | cons p t ih =>
    obtain ⟨y2, w⟩ := p
    simp only [bumpYear]
    split_ifs with h
    · subst h
      simp only [List.map_cons, List.mem_cons]
      tauto
    · simp only [List.map_cons, List.mem_cons, ih]
      tauto

lemma bumpYear_fst_nodup (acc : List (ℕ × ℚ)) (y : ℕ) (v : ℚ)
    (h : (acc.map Prod.fst).Nodup) : ((bumpYear acc y v).map Prod.fst).Nodup := by
  induction acc with
  | nil => simp [bumpYear]
  | cons p t ih =>
    obtain ⟨y2, w⟩ := p
    rw [List.map_cons, List.nodup_cons] at h
    simp only [bumpYear]
    split_ifs with heq
    · rw [List.map_cons, List.nodup_cons]
      exact ⟨h.1, h.2⟩
    · rw [List.map_cons, List.nodup_cons]
      refine ⟨?_, ih h.2⟩
      rw [bumpYear_fst_mem]
      rintro (rfl | hz)
      · exact heq rfl
      · exact h.1 hz

lemma bumpYear_snd_nonneg (acc : List (ℕ × ℚ)) (y : ℕ) (v : ℚ)
    (hacc : ∀ p ∈ acc, 0 ≤ p.2) (hv : 0 ≤ v) : ∀ p ∈ bumpYear acc y v, 0 ≤ p.2 := by
  induction acc with
  | nil =>
    intro p hp
    rw [bumpYear, List.mem_singleton] at hp
    subst hp
    exact hv
  | cons q t ih =>
    obtain ⟨y2, w⟩ := q
    intro p hp
    simp only [bumpYear] at hp
    split_ifs at hp with h
    · rcases List.mem_cons.mp hp with rfl | hp
      · have := hacc (y2, w) (List.mem_cons_self _ _)
        simp only at this ⊢
        linarith
      · exact hacc p (List.mem_cons_of_mem _ hp)
    · rcases List.mem_cons.mp hp with rfl | hp
      · exact hacc (y2, w) (List.mem_cons_self _ _)
      · exact ih (fun q hq => hacc q (List.mem_cons_of_mem _ hq)) p hp

lemma monthYearTotals_eq_foldBump (m : Fin 12) (rows : List (Date × Option ℚ)) :
    ∀ acc : List (ℕ × ℚ),
      rows.foldl
        (fun acc r =>
          match r.2 with
          | none => acc
          | some v => if r.1.month = m then bumpYear acc r.1.year v else acc)
        acc
      = (qualRows m rows).foldl (fun acc r => bumpYear acc r.1 r.2) acc := by
  induction rows with
  | nil =>
    intro acc
    rfl
  | cons r rs ih =>
    intro acc
    rcases hr : r.2 with _ | v
    · simp only [List.foldl_cons, qualRows, List.filterMap_cons, hr]
      exact ih acc
    · simp only [List.foldl_cons, qualRows, List.filterMap_cons, hr]
      by_cases hm : r.1.month = m
      · simp only [if_pos hm]
        exact ih _
      · simp only [if_neg hm]
        exact ih acc

lemma foldBump_snd_sum (L : List (ℕ × ℚ)) :
    ∀ acc : List (ℕ × ℚ),
      (((L.foldl (fun acc r => bumpYear acc r.1 r.2) acc)).map Prod.snd).sum
        = (acc.map Prod.snd).sum + (L.map Prod.snd).sum := by
  induction L with
  | nil =>
    intro acc
    simp
  | cons r rs ih =>
    intro acc
    simp only [List.foldl_cons, ih, bumpYear_snd_sum, List.map_cons, List.sum_cons]
    ring

lemma foldBump_fst_mem (L : List (ℕ × ℚ)) :
    ∀ (acc : List (ℕ × ℚ)) (z : ℕ),
      z ∈ ((L.foldl (fun acc r => bumpYear acc r.1 r.2) acc).map Prod.fst)
        ↔ z ∈ acc.map Prod.fst ∨ z ∈ L.map Prod.fst := by
  induction L with
  | nil =>
    intro acc z
    simp
  | cons r rs ih =>
    intro acc z
    simp only [List.foldl_cons, ih, bumpYear_fst_mem, List.map_cons, List.mem_cons]
    tauto

lemma foldBump_fst_nodup (L : List (ℕ × ℚ)) :
    ∀ acc : List (ℕ × ℚ), (acc.map Prod.fst).Nodup →
      ((L.foldl (fun acc r => bumpYear acc r.1 r.2) acc).map Prod.fst).Nodup := by
  induction L with
  | nil =>
    intro acc h
    exact h
  | cons r rs ih =>
    intro acc h
    simp only [List.foldl_cons]
    exact ih _ (bumpYear_fst_nodup acc r.1 r.2 h)

lemma foldBump_snd_nonneg (L : List (ℕ × ℚ)) :
    ∀ acc : List (ℕ × ℚ), (∀ p ∈ acc, 0 ≤ p.2) → (∀ p ∈ L, 0 ≤ p.2) →
      ∀ p ∈ L.foldl (fun acc r => bumpYear acc r.1 r.2) acc, 0 ≤ p.2 := by
  induction L with
  | nil =>
    intro acc hacc _ p hp
    exact hacc p hp
  | cons r rs ih =>
    intro acc hacc hL p hp
    simp only [List.foldl_cons] at hp
    refine ih _ ?_ (fun q hq => hL q (List.mem_cons_of_mem _ hq)) p hp
    exact bumpYear_snd_nonneg acc r.1 r.2 hacc (hL r (List.mem_cons_self _ _))

lemma monthYearTotals_nil_iff (m : Fin 12) (rows : List (Date × Option ℚ)) :
    monthYearTotals m rows = [] ↔ qualRows m rows = [] := by
  rw [monthYearTotals, monthYearTotals_eq_foldBump]
  cases h : qualRows m rows with
  | nil => simp
  | cons r rs =>
    simp only [List.foldl_cons]
    constructor
    · intro hnil
      exfalso
      have hm : r.1 ∈ ((rs.foldl (fun acc r => bumpYear acc r.1 r.2)
          (bumpYear [] r.1 r.2)).map Prod.fst) := by
        rw [foldBump_fst_mem]
        left
        rw [bumpYear_fst_mem]
        left
        rfl
      rw [hnil] at hm
      exact List.not_mem_nil _ hm
    · intro hco
      exact absurd hco (List.cons_ne_nil r rs)

lemma monthYearTotals_snd_sum (m : Fin 12) (rows : List (Date × Option ℚ)) :
    ((monthYearTotals m rows).map Prod.snd).sum
      = ((qualRows m rows).map Prod.snd).sum := by
  rw [monthYearTotals, monthYearTotals_eq_foldBump, foldBump_snd_sum]
  simp

lemma monthYearTotals_length (m : Fin 12) (rows : List (Date × Option ℚ)) :
    (monthYearTotals m rows).length
      = ((qualRows m rows).map Prod.fst).toFinset.card := by
  rw [monthYearTotals, monthYearTotals_eq_foldBump]
  have hnd := foldBump_fst_nodup (qualRows m rows) [] (by simp)
  have hset : (((qualRows m rows).foldl (fun acc r => bumpYear acc r.1 r.2) []).map
      Prod.fst).toFinset = ((qualRows m rows).map Prod.fst).toFinset := by
    ext z
    rw [List.mem_toFinset, List.mem_toFinset, foldBump_fst_mem]
    simp
  calc ((qualRows m rows).foldl (fun acc r => bumpYear acc r.1 r.2) []).length
      = (((qualRows m rows).foldl (fun acc r => bumpYear acc r.1 r.2) []).map
          Prod.fst).length := (List.length_map _ _).symm
    _ = (((qualRows m rows).foldl (fun acc r => bumpYear acc r.1 r.2) []).map
          Prod.fst).toFinset.card := (List.toFinset_card_of_nodup hnd).symm
    _ = ((qualRows m rows).map Prod.fst).toFinset.card := by rw [hset]

/-- Claim C10: the monthly average divides the per-(month, year) sums by the
number of distinct years with at least one non-missing observation for that
month (years with no data for the month are not counted as zero totals). -/
theorem monthly_mean_divides_by_observed_years (dates : List Date)
    (values : List (Option ℚ)) (m : Fin 12)
    (h : qualRows m (dates.zip values) ≠ []) :
    (monthName m,
      pyRound 1 (((qualRows m (dates.zip values)).map Prod.snd).sum /
        ((((qualRows m (dates.zip values)).map Prod.fst).toFinset.card : ℚ))))
      ∈ calculate_monthly_rainfall dates values := by
  have hnil : ¬ monthYearTotals m (dates.zip values) = [] := by
    rw [monthYearTotals_nil_iff]
    exact h
  have hmem : (monthName m,
      if monthYearTotals m (dates.zip values) = [] then (0:ℚ)
      else pyRound 1 (((monthYearTotals m (dates.zip values)).map Prod.snd).sum /
        ((monthYearTotals m (dates.zip values)).length : ℚ)))
      ∈ calculate_monthly_rainfall dates values :=
    List.mem_map.mpr ⟨m, List.mem_finRange m, rfl⟩
  rw [if_neg hnil, monthYearTotals_snd_sum, monthYearTotals_length] at hmem
  exact hmem

/-- Witness for C10: two Januaries in the window, but only 2020 has data
(100 mm); the mean divides by one observed year, giving 100.0 (not 50.0). -/
theorem monthly_mean_divides_by_observed_years_witness :
    ("January", (100:ℚ)) ∈
      calculate_monthly_rainfall [⟨2020, 0⟩, ⟨2021, 0⟩] [some 100, none] := by
  have h := monthly_mean_divides_by_observed_years [⟨2020, 0⟩, ⟨2021, 0⟩]
    [some 100, none] 0 (by decide)
  have hq : qualRows 0 ([(⟨2020, 0⟩ : Date), ⟨2021, 0⟩].zip [some 100, none])
      = [(2020, (100:ℚ))] := by decide
  rw [hq] at h
  have he : pyRound 1 ((([(2020, (100:ℚ))].map Prod.snd).sum) /
      ((([(2020, (100:ℚ))].map Prod.fst).toFinset.card : ℚ))) = 100 := by
    norm_num [pyRound, rnd]
  rw [he] at h
  exact h

lemma qualRows_snd_nonneg (m : Fin 12) (dates : List Date)
    (values : List (Option ℚ)) (hv : ∀ v : ℚ, some v ∈ values → 0 ≤ v) :
    ∀ p ∈ qualRows m (dates.zip values), 0 ≤ p.2 := by
  intro p hp
  obtain ⟨r, hr, heq⟩ := List.mem_filterMap.mp hp
  rcases hval : r.2 with _ | v
  · rw [hval] at heq
    exact Option.noConfusion heq
  · rw [hval] at heq
    split_ifs at heq with hm
    have hpv : p.2 = v := by
      rw [← Option.some_inj.mp heq]
    rw [hpv]
    refine hv v ?_
    have := (List.of_mem_zip hr).2
    rw [hval] at this
    exact this

/-- Amended C5: the monthly rainfall mapping always has exactly twelve
entries keyed by the canonical month names in January→December order, months
with zero qualifying days map to 0.0; the values are ≥ 0 whenever the
non-missing precipitation inputs are ≥ 0 (a negative input produces a
negative monthly value — there is no clamping). -/
theorem monthly_mapping_keys_zero_fill_nonneg (dates : List Date)
    (values : List (Option ℚ)) (hv : ∀ v : ℚ, some v ∈ values → 0 ≤ v) :
    (calculate_monthly_rainfall dates values).map Prod.fst = months ∧
    (calculate_monthly_rainfall dates values).length = 12 ∧
    (∀ m : Fin 12, qualRows m (dates.zip values) = [] →
      (monthName m, (0:ℚ)) ∈ calculate_monthly_rainfall dates values) ∧
    ∀ q ∈ calculate_monthly_rainfall dates values, 0 ≤ q.2 := by
  refine ⟨rfl, rfl, ?_, ?_⟩
  · intro m hm
    have hnil : monthYearTotals m (dates.zip values) = [] := by
      rw [monthYearTotals_nil_iff]
      exact hm
    have hmem : (monthName m,
        if monthYearTotals m (dates.zip values) = [] then (0:ℚ)
        else pyRound 1 (((monthYearTotals m (dates.zip values)).map Prod.snd).sum /
          ((monthYearTotals m (dates.zip values)).length : ℚ)))
        ∈ calculate_monthly_rainfall dates values :=
      List.mem_map.mpr ⟨m, List.mem_finRange m, rfl⟩
    rw [if_pos hnil] at hmem
    exact hmem
  · intro q hq
    obtain ⟨m, _hm, rfl⟩ := List.mem_map.mp hq
    show (0:ℚ) ≤ (monthName m,
      if monthYearTotals m (dates.zip values) = [] then (0:ℚ)
      else pyRound 1 (((monthYearTotals m (dates.zip values)).map Prod.snd).sum /
        ((monthYearTotals m (dates.zip values)).length : ℚ))).2
    by_cases hnil : monthYearTotals m (dates.zip values) = []
    · rw [if_pos hnil]
    · rw [if_neg hnil]
      apply pyRound_nonneg
      apply div_nonneg
      · apply List.sum_nonneg
        intro x hx
        obtain ⟨p, hp, rfl⟩ := List.mem_map.mp hx
        have hnn : ∀ p ∈ monthYearTotals m (dates.zip values), 0 ≤ p.2 := by
          rw [monthYearTotals, monthYearTotals_eq_foldBump]
          exact foldBump_snd_nonneg _ [] (by simp)
            (qualRows_snd_nonneg m dates values hv)
        exact hnn p hp
      · positivity

/-- Counterexample for C5: a single negative precipitation value yields a
negative monthly value, violating the unconditional value-nonnegativity. -/
theorem monthly_value_negative_on_negative_input :
    ∃ q ∈ calculate_monthly_rainfall [⟨2020, 0⟩] [some (-5)], q.2 < 0 := by
  have hmem : (monthName 0,
      if monthYearTotals 0 ([(⟨2020, 0⟩ : Date)].zip [some (-5)]) = [] then (0:ℚ)
      else pyRound 1 (((monthYearTotals 0
          ([(⟨2020, 0⟩ : Date)].zip [some (-5)])).map Prod.snd).sum /
        ((monthYearTotals 0 ([(⟨2020, 0⟩ : Date)].zip [some (-5)])).length : ℚ)))
      ∈ calculate_monthly_rainfall [⟨2020, 0⟩] [some (-5)] :=
    List.mem_map.mpr ⟨0, List.mem_finRange 0, rfl⟩
  have ht : monthYearTotals 0 ([(⟨2020, 0⟩ : Date)].zip [some (-5)])
      = [(2020, (-5:ℚ))] := by decide
  rw [ht, if_neg (List.cons_ne_nil _ _)] at hmem
  refine ⟨_, hmem, ?_⟩
  show pyRound 1 ((([(2020, (-5:ℚ))].map Prod.snd).sum) /
      (([(2020, (-5:ℚ))] : List (ℕ × ℚ)).length : ℚ)) < 0
  norm_num [pyRound, rnd]

/-- Witness for C5 (amended): a one-day, nonnegative input satisfies the key
and nonnegativity invariants. -/
theorem monthly_mapping_keys_zero_fill_nonneg_witness :
    (calculate_monthly_rainfall [⟨2020, 0⟩] [some 5]).map Prod.fst = months ∧
    ∀ q ∈ calculate_monthly_rainfall [⟨2020, 0⟩] [some 5], 0 ≤ q.2 := by
  have h := monthly_mapping_keys_zero_fill_nonneg [⟨2020, 0⟩] [some 5]
    (by
      intro v hvm
      rw [List.mem_singleton, Option.some_inj] at hvm
      rw [hvm]
      norm_num)
  exact ⟨h.1, h.2.2.2⟩

lemma maxQ_eq_some_headD {l : List ℚ} (h : l ≠ []) :
    maxQ l = some (l.foldl max (l.headD 0)) := by
  cases l with
  | nil => exact absurd rfl h
  | cons x xs => simp [maxQ, List.headD, List.foldl_cons, max_self]

/-- The profile `get_climate_profile` produces on success, with every
aggregate written in closed form over the filtered input series. -/
def profileOf (d : DailyData) : ClimateProfile :=
  let temps_max := d.temperature_2m_max.filterMap id
  let temps_min := d.temperature_2m_min.filterMap id
  let yearly_rainfall := calculate_yearly_rainfall d.time d.precipitation_sum
  let monthly_rainfall := calculate_monthly_rainfall d.time d.precipitation_sum
  let monthly_temps_max := calculate_monthly_temp_averages d.time d.temperature_2m_max
  let wind_speeds := d.wind_speed_10m_max.filterMap id
  let wind_gusts := d.wind_gusts_10m_max.filterMap id
  let wind_dirs := d.wind_direction_10m_dominant.filterMap id
  let solar_radiation := d.shortwave_radiation_sum.filterMap id
  let humidity_mean := d.relative_humidity_2m_mean.filterMap id
  let humidity_max := d.relative_humidity_2m_max.filterMap id
  let humidity_min := d.relative_humidity_2m_min.filterMap id
  let soil_0_7 := d.soil_moisture_0_to_7cm_mean.filterMap id
  let soil_7_100 := d.soil_moisture_7_to_28cm_mean.filterMap id ++
    d.soil_moisture_28_to_100cm_mean.filterMap id
  let soil_temp := d.soil_temperature_0_to_7cm_mean.filterMap id
  let et0_values := d.et0_fao_evapotranspiration.filterMap id
  { annual_temp_avg_c := pyRound 1 ((temps_max.sum / (temps_max.length : ℚ) +
      temps_min.sum / (temps_min.length : ℚ)) / 2)
    annual_temp_max_c := pyRound 1 (temps_max.sum / (temps_max.length : ℚ))
    annual_temp_min_c := pyRound 1 (temps_min.sum / (temps_min.length : ℚ))
    hottest_month := (maxPairFirst monthly_temps_max).1
    coldest_month := (minPairFirst monthly_temps_max).1
    annual_rainfall_mm := pyRound 1
      (if yearly_rainfall = [] then 0
       else yearly_rainfall.sum / (yearly_rainfall.length : ℚ))
    wettest_month := (maxPairFirst monthly_rainfall).1
    driest_month := (minPairFirst monthly_rainfall).1
    rainfall_by_month := monthly_rainfall
    wind :=
      { avg_speed_kmh := pyRound 1 (wind_speeds.sum / (wind_speeds.length : ℚ))
        max_gust_kmh := pyRound 1 (wind_gusts.foldl max (wind_gusts.headD 0))
        dominant_direction_degrees := pyRound 0 (wind_dirs.sum / (wind_dirs.length : ℚ)) }
    solar :=
      { annual_radiation_sum_mj_m2 := pyRound 1 solar_radiation.sum
        avg_daily_radiation_wm2 := pyRound 1
          (solar_radiation.sum / (solar_radiation.length : ℚ) * 1000000 / 3600) }
    humidity :=
      { avg_relative_humidity_percent := pyRound 1
          (humidity_mean.sum / (humidity_mean.length : ℚ))
        max_relative_humidity_percent := pyRound 1
          (humidity_max.sum / (humidity_max.length : ℚ))
        min_relative_humidity_percent := pyRound 1
          (humidity_min.sum / (humidity_min.length : ℚ)) }
    soil :=
      { avg_moisture_0_7cm := pyRound 3 (soil_0_7.sum / (soil_0_7.length : ℚ))
        avg_moisture_7_100cm := pyRound 3 (soil_7_100.sum / (soil_7_100.length : ℚ))
        avg_temp_0_7cm_c := pyRound 1 (soil_temp.sum / (soil_temp.length : ℚ)) }
    annual_et0_mm := pyRound 1 et0_values.sum }

lemma profile_some_char (d : DailyData)
    (h1 : d.temperature_2m_max.filterMap id ≠ [])
    (h2 : d.temperature_2m_min.filterMap id ≠ [])
    (h3 : d.wind_speed_10m_max.filterMap id ≠ [])
    (h4 : d.wind_gusts_10m_max.filterMap id ≠ [])
    (h5 : d.wind_direction_10m_dominant.filterMap id ≠ [])
    (h6 : d.shortwave_radiation_sum.filterMap id ≠ [])
    (h7 : d.relative_humidity_2m_mean.filterMap id ≠ [])
    (h8 : d.relative_humidity_2m_max.filterMap id ≠ [])
    (h9 : d.relative_humidity_2m_min.filterMap id ≠ [])
    (h10 : d.soil_moisture_0_to_7cm_mean.filterMap id ≠ [])
    (h11 : d.soil_moisture_7_to_28cm_mean.filterMap id ++
      d.soil_moisture_28_to_100cm_mean.filterMap id ≠ [])
    (h12 : d.soil_temperature_0_to_7cm_mean.filterMap id ≠ []) :
    get_climate_profile d = some (profileOf d) := by
  simp only [get_climate_profile, meanQ_eq_some h1, meanQ_eq_some h2,
    meanQ_eq_some h3, maxQ_eq_some_headD h4, meanQ_eq_some h5, meanQ_eq_some h6,
    meanQ_eq_some h7, meanQ_eq_some h8, meanQ_eq_some h9, meanQ_eq_some h10,
    meanQ_eq_some h11, meanQ_eq_some h12, Option.some_bind]
  rfl

lemma profile_inversion (d : DailyData) (p : ClimateProfile)
    (hp : get_climate_profile d = some p) : p = profileOf d := by
  have hnone : ¬ get_climate_profile d = none := by
    intro h
    exact Option.noConfusion (hp.symm.trans h)
  have hR := mt (get_climate_profile_none_iff d).mpr hnone
  push_neg at hR
  obtain ⟨n1, n2, n3, n4, n5, n6, n7, n8, n9, n10, n11, n12⟩ := hR
  have n11c : d.soil_moisture_7_to_28cm_mean.filterMap id ++
      d.soil_moisture_28_to_100cm_mean.filterMap id ≠ [] := by
    intro hq
    rw [List.append_eq_nil] at hq
    exact n11 hq.1 hq.2
  have hs := profile_some_char d n1 n2 n3 n4 n5 n6 n7 n8 n9 n10 n11c n12
  rw [hs] at hp
  exact (Option.some_inj.mp hp).symm

lemma sum_const {l : List ℚ} {c : ℚ} (hc : ∀ x ∈ l, x = c) :
    l.sum = (l.length : ℚ) * c := by
  induction l with
  | nil => simp
  | cons x xs ih =>
    rw [List.sum_cons, ih (fun y hy => hc y (List.mem_cons_of_mem _ hy)),
      List.length_cons, hc x (List.mem_cons_self _ _)]
    push_cast
    ring

lemma mean_const {l : List ℚ} {c : ℚ} (hc : ∀ x ∈ l, x = c) (h : l ≠ []) :
    l.sum / (l.length : ℚ) = c := by
  have hl : ((l.length : ℚ)) ≠ 0 := by
    have := List.length_pos.mpr h
    positivity
  rw [sum_const hc]
  field_simp

/-- Claim C7: the annual max/min temperatures are the rounded means of all
non-missing daily values over the whole window (a single flat mean, not a
mean of per-year means), the annual average is their midpoint, and uniform
30 °C maxima with 20 °C minima give an annual average of exactly 25.0. -/
theorem annual_temps_whole_window_means (d : DailyData)
    (h1 : d.temperature_2m_max.filterMap id ≠ [])
    (h2 : d.temperature_2m_min.filterMap id ≠ [])
    (h3 : d.wind_speed_10m_max.filterMap id ≠ [])
    (h4 : d.wind_gusts_10m_max.filterMap id ≠ [])
    (h5 : d.wind_direction_10m_dominant.filterMap id ≠ [])
    (h6 : d.shortwave_radiation_sum.filterMap id ≠ [])
    (h7 : d.relative_humidity_2m_mean.filterMap id ≠ [])
    (h8 : d.relative_humidity_2m_max.filterMap id ≠ [])
    (h9 : d.relative_humidity_2m_min.filterMap id ≠ [])
    (h10 : d.soil_moisture_0_to_7cm_mean.filterMap id ≠ [])
    (h11 : d.soil_moisture_7_to_28cm_mean.filterMap id ++
      d.soil_moisture_28_to_100cm_mean.filterMap id ≠ [])
    (h12 : d.soil_temperature_0_to_7cm_mean.filterMap id ≠ []) :
    ∃ p, get_climate_profile d = some p ∧
      p.annual_temp_max_c = pyRound 1 ((d.temperature_2m_max.filterMap id).sum /
        ((d.temperature_2m_max.filterMap id).length : ℚ)) ∧
      p.annual_temp_min_c = pyRound 1 ((d.temperature_2m_min.filterMap id).sum /
        ((d.temperature_2m_min.filterMap id).length : ℚ)) ∧
      p.annual_temp_avg_c = pyRound 1
        (((d.temperature_2m_max.filterMap id).sum /
            ((d.temperature_2m_max.filterMap id).length : ℚ) +
          (d.temperature_2m_min.filterMap id).sum /
            ((d.temperature_2m_min.filterMap id).length : ℚ)) / 2) ∧
      ((∀ x ∈ d.temperature_2m_max.filterMap id, x = 30) →
       (∀ x ∈ d.temperature_2m_min.filterMap id, x = 20) →
        p.annual_temp_avg_c = 25) := by
  refine ⟨profileOf d,
    profile_some_char d h1 h2 h3 h4 h5 h6 h7 h8 h9 h10 h11 h12,
    rfl, rfl, rfl, ?_⟩
  intro h30 h20
  show pyRound 1 (((d.temperature_2m_max.filterMap id).sum /
      ((d.temperature_2m_max.filterMap id).length : ℚ) +
    (d.temperature_2m_min.filterMap id).sum /
      ((d.temperature_2m_min.filterMap id).length : ℚ)) / 2) = 25
  rw [mean_const h30 h1, mean_const h20 h2]
  norm_num [pyRound, rnd]

/-- Witness for C7: one day at max 30 °C and min 20 °C yields a profile with
an annual average of exactly 25.0. -/
theorem annual_temps_whole_window_means_witness :
    ∃ p, get_climate_profile dNoPrecip = some p ∧ p.annual_temp_avg_c = 25 := by
  obtain ⟨p, hp, _, _, _, havg⟩ := annual_temps_whole_window_means dNoPrecip
    (by decide) (by decide) (by decide) (by decide) (by decide) (by decide)
    (by decide) (by decide) (by decide) (by decide) (by decide) (by decide)
  exact ⟨p, hp, havg (by decide) (by decide)⟩

lemma foldBest_max_le (l : List (String × ℚ)) :
    ∀ b : String × ℚ,
      b.2 ≤ (l.foldl (fun best q => if q.2 > best.2 then q else best) b).2 ∧
      ∀ q ∈ l, q.2 ≤ (l.foldl (fun best q => if q.2 > best.2 then q else best) b).2 := by
  induction l with
  | nil =>
    intro b
    exact ⟨le_refl _, fun q hq => absurd hq (List.not_mem_nil q)⟩
  | cons x xs ih =>
    intro b
    simp only [List.foldl_cons]
    have hbb : b.2 ≤ (if x.2 > b.2 then x else b).2 := by
      split_ifs with h
      · exact le_of_lt h
      · exact le_refl _
    have hxb : x.2 ≤ (if x.2 > b.2 then x else b).2 := by
      split_ifs with h
      · exact le_refl _
      · exact le_of_not_lt h
    obtain ⟨ihb, ihq⟩ := ih (if x.2 > b.2 then x else b)
    refine ⟨le_trans hbb ihb, ?_⟩
    intro q hq
    rcases List.mem_cons.mp hq with rfl | hq
    · exact le_trans hxb ihb
    · exact ihq q hq

lemma foldBest_max_split (l : List (String × ℚ)) :
    ∀ b : String × ℚ, ∃ l1 l2,
      b :: l = l1 ++ (l.foldl (fun best q => if q.2 > best.2 then q else best) b) :: l2 ∧
      ∀ q ∈ l1, q.2 < (l.foldl (fun best q => if q.2 > best.2 then q else best) b).2 := by
  induction l with
  | nil =>
    intro b
    exact ⟨[], [], rfl, fun q hq => absurd hq (List.not_mem_nil q)⟩
  | cons x xs ih =>
    intro b
    simp only [List.foldl_cons]
    by_cases hx : x.2 > b.2
    · rw [if_pos hx]
      obtain ⟨l1, l2, hsplit, hlt⟩ := ih x
      refine ⟨b :: l1, l2, ?_, ?_⟩
      · rw [List.cons_append, ← hsplit]
      · intro q hq
        rcases List.mem_cons.mp hq with rfl | hq
        · exact lt_of_lt_of_le hx (foldBest_max_le xs x).1
        · exact hlt q hq
    · rw [if_neg hx]
      obtain ⟨l1, l2, hsplit, hlt⟩ := ih b
      cases l1 with
      | nil =>
        rw [List.nil_append] at hsplit
        injection hsplit with hb hxs
        refine ⟨[], x :: xs, ?_, fun q hq => absurd hq (List.not_mem_nil q)⟩
        rw [List.nil_append, ← hb]
      | cons p t =>
        rw [List.cons_append] at hsplit
        injection hsplit with hb hrest
        have hbres := hlt p (List.mem_cons_self p t)
        rw [← hb] at hbres
        refine ⟨b :: x :: t, l2, ?_, ?_⟩
        · rw [List.cons_append, List.cons_append, ← hrest]
        · intro q hq
          rcases List.mem_cons.mp hq with rfl | hq2
          · exact hbres
          · rcases List.mem_cons.mp hq2 with rfl | hq3
            · exact lt_of_le_of_lt (le_of_not_lt hx) hbres
            · exact hlt q (List.mem_cons_of_mem p hq3)

lemma foldBest_min_le (l : List (String × ℚ)) :
    ∀ b : String × ℚ,
      (l.foldl (fun best q => if q.2 < best.2 then q else best) b).2 ≤ b.2 ∧
      ∀ q ∈ l, (l.foldl (fun best q => if q.2 < best.2 then q else best) b).2 ≤ q.2 := by
  induction l with
  | nil =>
    intro b
    exact ⟨le_refl _, fun q hq => absurd hq (List.not_mem_nil q)⟩
  | cons x xs ih =>
    intro b
    simp only [List.foldl_cons]
    have hbb : (if x.2 < b.2 then x else b).2 ≤ b.2 := by
      split_ifs with h
      · exact le_of_lt h
      · exact le_refl _
    have hxb : (if x.2 < b.2 then x else b).2 ≤ x.2 := by
      split_ifs with h
      · exact le_refl _
      · exact le_of_not_lt h
    obtain ⟨ihb, ihq⟩ := ih (if x.2 < b.2 then x else b)
    refine ⟨le_trans ihb hbb, ?_⟩
    intro q hq
    rcases List.mem_cons.mp hq with rfl | hq
    · exact le_trans ihb hxb
    · exact ihq q hq

lemma foldBest_min_split (l : List (String × ℚ)) :
    ∀ b : String × ℚ, ∃ l1 l2,
      b :: l = l1 ++ (l.foldl (fun best q => if q.2 < best.2 then q else best) b) :: l2 ∧
      ∀ q ∈ l1, (l.foldl (fun best q => if q.2 < best.2 then q else best) b).2 < q.2 := by
  induction l with
  | nil =>
    intro b
    exact ⟨[], [], rfl, fun q hq => absurd hq (List.not_mem_nil q)⟩
  | cons x xs ih =>
    intro b
    simp only [List.foldl_cons]
    by_cases hx : x.2 < b.2
    · rw [if_pos hx]
      obtain ⟨l1, l2, hsplit, hlt⟩ := ih x
      refine ⟨b :: l1, l2, ?_, ?_⟩
      · rw [List.cons_append, ← hsplit]
      · intro q hq
        rcases List.mem_cons.mp hq with rfl | hq
        · exact lt_of_le_of_lt (foldBest_min_le xs x).1 hx
        · exact hlt q hq
    · rw [if_neg hx]
      obtain ⟨l1, l2, hsplit, hlt⟩ := ih b
      cases l1 with
      | nil =>
        rw [List.nil_append] at hsplit
        injection hsplit with hb hxs
        refine ⟨[], x :: xs, ?_, fun q hq => absurd hq (List.not_mem_nil q)⟩
        rw [List.nil_append, ← hb]
      | cons p t =>
        rw [List.cons_append] at hsplit
        injection hsplit with hb hrest
        have hbres := hlt p (List.mem_cons_self p t)
        rw [← hb] at hbres
        refine ⟨b :: x :: t, l2, ?_, ?_⟩
        · rw [List.cons_append, List.cons_append, ← hrest]
        · intro q hq
          rcases List.mem_cons.mp hq with rfl | hq2
          · exact hbres
          · rcases List.mem_cons.mp hq2 with rfl | hq3
            · exact lt_of_lt_of_le hbres (le_of_not_lt hx)
            · exact hlt q (List.mem_cons_of_mem p hq3)

lemma calculate_monthly_rainfall_ne_nil (dates : List Date)
    (values : List (Option ℚ)) : calculate_monthly_rainfall dates values ≠ [] := by
  intro h
  have hlen := congrArg List.length h
  simp [calculate_monthly_rainfall] at hlen

lemma calculate_monthly_temp_averages_ne_nil (dates : List Date)
    (values : List (Option ℚ)) : calculate_monthly_temp_averages dates values ≠ [] := by
  intro h
  have hlen := congrArg List.length h
  simp [calculate_monthly_temp_averages] at hlen

set_option maxRecDepth 16384 in
/-- Claim C6: in every produced climate profile, the wettest/driest months
attain the maximal/minimal value of the monthly rainfall mapping and the
hottest/coldest months attain the extremes of the monthly mean max
temperature; on ties the month encountered first in calendar order (the
mapping's iteration order) is selected: every earlier entry is strictly
beaten. -/
theorem extreme_months_argmax_first_tie (d : DailyData) (p : ClimateProfile)
    (hp : get_climate_profile d = some p) :
    p.rainfall_by_month = calculate_monthly_rainfall d.time d.precipitation_sum ∧
    (∃ w l1 l2,
      calculate_monthly_rainfall d.time d.precipitation_sum
        = l1 ++ (p.wettest_month, w) :: l2 ∧
      (∀ q ∈ calculate_monthly_rainfall d.time d.precipitation_sum, q.2 ≤ w) ∧
      ∀ q ∈ l1, q.2 < w) ∧
    (∃ v l1 l2,
      calculate_monthly_rainfall d.time d.precipitation_sum
        = l1 ++ (p.driest_month, v) :: l2 ∧
      (∀ q ∈ calculate_monthly_rainfall d.time d.precipitation_sum, v ≤ q.2) ∧
      ∀ q ∈ l1, v < q.2) ∧
    (∃ h l1 l2,
      calculate_monthly_temp_averages d.time d.temperature_2m_max
        = l1 ++ (p.hottest_month, h) :: l2 ∧
      (∀ q ∈ calculate_monthly_temp_averages d.time d.temperature_2m_max, q.2 ≤ h) ∧
      ∀ q ∈ l1, q.2 < h) ∧
    (∃ c l1 l2,
      calculate_monthly_temp_averages d.time d.temperature_2m_max
        = l1 ++ (p.coldest_month, c) :: l2 ∧
      (∀ q ∈ calculate_monthly_temp_averages d.time d.temperature_2m_max, c ≤ q.2) ∧
      ∀ q ∈ l1, c < q.2) := by
  have hpe := profile_inversion d p hp
  subst hpe
  refine ⟨rfl, ?_, ?_, ?_, ?_⟩
  · obtain ⟨r0, rest, hcons⟩ := List.exists_cons_of_ne_nil
      (calculate_monthly_rainfall_ne_nil d.time d.precipitation_sum)
    obtain ⟨l1, l2, hsplit, hlt⟩ := foldBest_max_split rest r0
    obtain ⟨hble, hqle⟩ := foldBest_max_le rest r0
    refine ⟨(maxPairFirst (calculate_monthly_rainfall d.time d.precipitation_sum)).2,
      l1, l2, ?_, ?_, ?_⟩
    · show calculate_monthly_rainfall d.time d.precipitation_sum
        = l1 ++ maxPairFirst (calculate_monthly_rainfall d.time d.precipitation_sum) :: l2
      rw [hcons]
      exact hsplit
    · intro q hq
      rw [hcons] at hq ⊢
      rcases List.mem_cons.mp hq with rfl | hq2
      · exact hble
      · exact hqle q hq2
    · intro q hq
      rw [hcons]
      exact hlt q hq
  · obtain ⟨r0, rest, hcons⟩ := List.exists_cons_of_ne_nil
      (calculate_monthly_rainfall_ne_nil d.time d.precipitation_sum)
    obtain ⟨l1, l2, hsplit, hlt⟩ := foldBest_min_split rest r0
    obtain ⟨hble, hqle⟩ := foldBest_min_le rest r0
    refine ⟨(minPairFirst (calculate_monthly_rainfall d.time d.precipitation_sum)).2,
      l1, l2, ?_, ?_, ?_⟩
    · show calculate_monthly_rainfall d.time d.precipitation_sum
        = l1 ++ minPairFirst (calculate_monthly_rainfall d.time d.precipitation_sum) :: l2
      rw [hcons]
      exact hsplit
    · intro q hq
      rw [hcons] at hq ⊢
      rcases List.mem_cons.mp hq with rfl | hq2
      · exact hble
      · exact hqle q hq2
    · intro q hq
      rw [hcons]
      exact hlt q hq
  · obtain ⟨r0, rest, hcons⟩ := List.exists_cons_of_ne_nil
      (calculate_monthly_temp_averages_ne_nil d.time d.temperature_2m_max)
    obtain ⟨l1, l2, hsplit, hlt⟩ := foldBest_max_split rest r0
    obtain ⟨hble, hqle⟩ := foldBest_max_le rest r0
    refine ⟨(maxPairFirst (calculate_monthly_temp_averages d.time d.temperature_2m_max)).2,
      l1, l2, ?_, ?_, ?_⟩
    · show calculate_monthly_temp_averages d.time d.temperature_2m_max
        = l1 ++ maxPairFirst (calculate_monthly_temp_averages d.time d.temperature_2m_max) :: l2
      rw [hcons]
      exact hsplit
    · intro q hq
      rw [hcons] at hq ⊢
      rcases List.mem_cons.mp hq with rfl | hq2
      · exact hble
      · exact hqle q hq2
    · intro q hq
      rw [hcons]
      exact hlt q hq
  · obtain ⟨r0, rest, hcons⟩ := List.exists_cons_of_ne_nil
      (calculate_monthly_temp_averages_ne_nil d.time d.temperature_2m_max)
    obtain ⟨l1, l2, hsplit, hlt⟩ := foldBest_min_split rest r0
    obtain ⟨hble, hqle⟩ := foldBest_min_le rest r0
    refine ⟨(minPairFirst (calculate_monthly_temp_averages d.time d.temperature_2m_max)).2,
      l1, l2, ?_, ?_, ?_⟩
    · show calculate_monthly_temp_averages d.time d.temperature_2m_max
        = l1 ++ minPairFirst (calculate_monthly_temp_averages d.time d.temperature_2m_max) :: l2
      rw [hcons]
      exact hsplit
    · intro q hq
      rw [hcons] at hq ⊢
      rcases List.mem_cons.mp hq with rfl | hq2
      · exact hble
      · exact hqle q hq2
    · intro q hq
      rw [hcons]
      exact hlt q hq

/-- Witness for C6: the one-day bundle's profile places its wettest month at
the maximum of the monthly mapping, with all earlier months strictly below. -/
theorem extreme_months_argmax_first_tie_witness :
    ∃ w l1 l2,
      calculate_monthly_rainfall dNoPrecip.time dNoPrecip.precipitation_sum
        = l1 ++ ((profileOf dNoPrecip).wettest_month, w) :: l2 ∧
      (∀ q ∈ calculate_monthly_rainfall dNoPrecip.time dNoPrecip.precipitation_sum,
        q.2 ≤ w) ∧
      ∀ q ∈ l1, q.2 < w :=
  (extreme_months_argmax_first_tie dNoPrecip (profileOf dNoPrecip)
    (profile_some_char dNoPrecip (by decide) (by decide) (by decide) (by decide)
      (by decide) (by decide) (by decide) (by decide) (by decide) (by decide)
      (by decide) (by decide))).2.1

end Foundry
